import Mathlib

/-!
Verification of the day2 crawler pipeline: the async fetcher
(`async_crawler.py`), the SQLite-backed article store
(`ArticleDatabase.py`) and the coordinating pipeline
(`crawler_db_pipeline.py`).

Python strings are modelled as Lean `String` (a list of code points);
Python's slice `s[:n]` is `pyTake s n`.  `time.time()` timestamps are
modelled as abstract `Nat` ticks: the code never computes with them
beyond formatting.  The network, the HTML parser (BeautifulSoup) and the
SQLite engine are external collaborators; each is modelled at the
boundary the source code actually touches (an `HttpResult` for one
request, a `Soup` exposing the text of the first element matched by a
CSS selector, and an explicit list-of-rows database state).
-/

/-- Python slice `s[:n]` for a nonnegative bound. -/
def pyTake (s : String) (n : Nat) : String := ⟨s.data.take n⟩

/-- `Article` from `async_crawler.py`: the result of one fetch.
`fetched_at` (a `time.time()` float in the source) is an abstract tick. -/
structure Article where
  title : String
  url : String
  content : String
  fetched_at : Nat
  status : Nat
deriving DecidableEq, Repr

/-- One `<p>` element as the extraction code sees it: `get_text()` and
`get_text(strip=True)` of the paragraph. -/
structure Para where
  get_text : String
  get_text_strip : String
deriving DecidableEq

/-- The part of a BeautifulSoup document the extraction code reads:
`select_one sel` is the text (`get_text(..., strip=True)`) of the first
truthy element matching CSS selector `sel`, if any; `paragraphs` is
`find_all('p')`; `get_text` is the text of the whole document. -/
structure SoupView where
  select_one : String → Option String
  paragraphs : List Para
  get_text : String

/-- A parsed document: the original view, and the view after
`noise.decompose()` removed script/style/nav/header/footer/aside
(the source mutates the soup before running content extraction). -/
structure Soup where
  view : SoupView
  denoised : SoupView

/-- Selector list from `AsyncCrawler._extract_title`. -/
def title_selectors : List String :=
  ["h1.article-title", "h1.entry-title", "h1.post-title", "h1", "title",
   ".article-header h1"]

/-- Selector list from `AsyncCrawler._extract_content`. -/
def content_selectors : List String :=
  ["article", "main", ".article-content", ".post-content", ".entry-content",
   "[role=\"main\"]"]

/-- First selector in the list that matches, as in the source's
`for selector in selectors: tag = soup.select_one(selector); if tag: ...`. -/
def firstMatch (f : String → Option String) : List String → Option String
  | [] => none
  | sel :: rest =>
    match f sel with
    | some t => some t
    | none => firstMatch f rest

/-- `AsyncCrawler._extract_title`: first matching selector's text capped
at 200, else the fixed placeholder. -/
def extract_title (soup : Soup) : String :=
  match firstMatch soup.view.select_one title_selectors with
  | some t => pyTake t 200
  | none => "无标题"

/-- Python's `max(paragraphs, key=lambda p: len(p.get_text()))`:
first paragraph of maximal raw-text length. -/
def longestPara (p : Para) (ps : List Para) : Para :=
  ps.foldl (fun acc q =>
    if acc.get_text.length < q.get_text.length then q else acc) p

/-- `AsyncCrawler._extract_content`: noise already removed, then the first
matching container capped at 10000, else the longest paragraph capped at
10000, else the whole text capped at 5000. -/
def extract_content (soup : Soup) : String :=
  match firstMatch soup.denoised.select_one content_selectors with
  | some t => pyTake t 10000
  | none =>
    match soup.denoised.paragraphs with
    | p :: ps => pyTake (longestPara p ps).get_text_strip 10000
    | [] => pyTake soup.denoised.get_text 5000

/-- What one `session.get(url)` can produce at the boundary of
`AsyncCrawler.fetch_one`: a timeout (`asyncio.TimeoutError`), some other
transport exception, or an HTTP response with a status and a body. -/
inductive HttpResult
  | timeout
  | connectionError (msg : String)
  | response (status : Nat) (body : String)
deriving DecidableEq

/-- `AsyncCrawler.fetch_one`, one URL.  `parse` is BeautifulSoup
(`BeautifulSoup(html, 'lxml')`) and `now` the `time.time()` tick at
completion.  Transport failures are caught and become `none`; a non-200
status becomes an `Article` with that status and empty title/content;
a 200 response has its body truncated to 1,000,000 units before parsing
and extraction. -/
def fetch_one (url : String) (resp : HttpResult) (parse : String → Soup)
    (now : Nat) : Option Article :=
  match resp with
  | .timeout => none
  | .connectionError _ => none
  | .response status body =>
    if status ≠ 200 then
      some { title := "", url := url, content := "", fetched_at := now,
             status := status }
    else
      let html := if 1000000 < body.length then pyTake body 1000000 else body
      let soup := parse html
      some { title := extract_title soup, url := url,
             content := extract_content soup, fetched_at := now, status := 200 }

/-- One element of the list `asyncio.gather(*tasks, return_exceptions=True)`
hands to `fetch_many`: either the value `fetch_one` returned (an `Article`
or `None`), or an exception captured by `gather`. -/
inductive TaskResult
  | result (a : Option Article)
  | exn (msg : String)
deriving DecidableEq

/-- The per-element filter in `AsyncCrawler.fetch_many`: keep `r` exactly
when `isinstance(r, Article) and r.status == 200`. -/
def keepSuccess : TaskResult → Option Article
  | .result (some a) => if a.status == 200 then some a else none
  | .result none => none
  | .exn _ => none

/-- The result-collection loop of `AsyncCrawler.fetch_many`: keep the
status-200 articles, drop the no-outcome signals, the non-200 outcomes
and the captured exceptions. -/
def fetch_many (results : List TaskResult) : List Article :=
  results.filterMap keepSuccess

/-- A per-task result that `fetch_many` counts as a failure: the
no-outcome signal, a captured exception, or a non-200 outcome. -/
def isFailureResult : TaskResult → Bool
  | .result (some a) => a.status != 200
  | .result none => true
  | .exn _ => true

/-- State of the concurrency gate (`asyncio.Semaphore(max_concurrent)`
wrapped by `async with self.semaphore` in `fetch_one`) over a batch of
identical tasks: how many tasks still wait before `acquire`, how many
hold the gate (past `acquire`, before `release`), how many are done. -/
structure GateState where
  pending : Nat
  holding : Nat
  done : Nat
deriving DecidableEq, Repr

/-- Interleaving semantics of the gated batch.  `acquire` admits a waiting
task only while fewer than `K` tasks hold the gate (the semaphore's
internal counter is positive); `release` is the only exit from the
holding section — `async with` runs it on every exit path, success or
exception, so a holding task can only move to done. -/
inductive GateStep (K : Nat) : GateState → GateState → Prop
  | acquire (s : GateState) : 0 < s.pending → s.holding < K →
      GateStep K s ⟨s.pending - 1, s.holding + 1, s.done⟩
  | release (s : GateState) : 0 < s.holding →
      GateStep K s ⟨s.pending, s.holding - 1, s.done + 1⟩

/-- States reachable by a batch of `n` tasks through a gate of capacity
`K`, starting with every task pending. -/
def GateReach (K n : Nat) (s : GateState) : Prop :=
  Relation.ReflTransGen (GateStep K) ⟨n, 0, 0⟩ s

/-- `asyncio.Semaphore(value)` raises `ValueError` exactly when
`value < 0`; otherwise it stores the value as the internal counter. -/
def Semaphore_init (value : Int) : Except String Int :=
  if value < 0 then .error "ValueError: Semaphore initial value must not be negative"
  else .ok value

/-- The crawler configuration built by `AsyncCrawler.__init__`. -/
structure CrawlerConfig where
  semaphore_value : Int
  delay : Int
  timeout : Int
deriving DecidableEq, Repr

/-- `AsyncCrawler.__init__(max_concurrent, delay, timeout)`: the only
validation performed is the one inside `asyncio.Semaphore`. -/
def AsyncCrawler_init (max_concurrent : Int) (delay : Int) (timeout : Int) :
    Except String CrawlerConfig :=
  match Semaphore_init max_concurrent with
  | .error e => .error e
  | .ok v => .ok { semaphore_value := v, delay := delay, timeout := timeout }

/-- Whether a constructor call succeeded. -/
def initOk (r : Except String CrawlerConfig) : Bool :=
  match r with
  | .ok _ => true
  | .error _ => false

/-- One row of the `articles` table created by
`ArticleDatabase._init_tables`. -/
structure ArticleRow where
  id : Nat
  title : String
  url : String
  content : String
  source : String
  category : Option String
  fetched_at : String
  created_at : String
deriving DecidableEq, Repr

/-- The dictionary `CrawlerPipeline.article_to_record` builds and
`ArticleDatabase.insert_article` binds into its SQL statement. -/
structure RecordDict where
  title : String
  url : String
  content : String
  source : String
  fetched_at : String
deriving DecidableEq, Repr

/-- The `articles` table state: its rows and the next `AUTOINCREMENT`
rowid. -/
structure ArticleDB where
  rows : List ArticleRow
  next_id : Nat
deriving DecidableEq, Repr

/-- The row holding a given url, if any (`url` is `UNIQUE`). -/
def findRow (db : ArticleDB) (url : String) : Option ArticleRow :=
  db.rows.find? fun r => r.url == url

/-- How many stored rows carry a given url. -/
def countUrl (db : ArticleDB) (url : String) : Nat :=
  (db.rows.filter fun r => r.url == url).length

/-- Table well-formedness maintained by SQLite: urls are pairwise
distinct (`UNIQUE`) and every rowid is below the `AUTOINCREMENT`
counter. -/
def DBWF (db : ArticleDB) : Prop :=
  db.rows.Pairwise (fun r r' => r.url ≠ r'.url) ∧
  ∀ r ∈ db.rows, r.id < db.next_id

/-- `ArticleDatabase.insert_article` on the happy path of the storage
engine: `INSERT ... ON CONFLICT(url) DO UPDATE SET title, content,
fetched_at ... RETURNING id`.  `now` is SQLite's `CURRENT_TIMESTAMP`
used for the `created_at` default of a fresh row.  Returns the
`RETURNING id` value and the new table state. -/
def insert_article (db : ArticleDB) (a : RecordDict) (now : String) :
    Option Nat × ArticleDB :=
  match findRow db a.url with
  | none =>
    (some db.next_id,
     { rows := db.rows ++
         [{ id := db.next_id, title := a.title, url := a.url,
            content := a.content, source := a.source, category := none,
            fetched_at := a.fetched_at, created_at := now }],
       next_id := db.next_id + 1 })
  | some r0 =>
    (some r0.id,
     { rows := db.rows.map fun r =>
         if r.url == a.url then
           { r with title := a.title, content := a.content,
                    fetched_at := a.fetched_at }
         else r,
       next_id := db.next_id })

/-- `datetime.fromtimestamp(t).isoformat()`, abstracted to an injective
formatting of the tick. -/
def isoformat (t : Nat) : String := toString t

/-- `CrawlerPipeline.article_to_record`: truncate title to 200 and
content to 2000, keep the url, attach the source label and the
ISO-formatted fetch time. -/
def article_to_record (article : Article) (source : String) : RecordDict :=
  { title := pyTake article.title 200,
    url := article.url,
    content := pyTake article.content 2000,
    source := source,
    fetched_at := isoformat article.fetched_at }

/-- The statistics dictionary of `CrawlerPipeline.crawl_and_store`. -/
structure PipeStats where
  total : Nat
  success : Nat
  failed : Nat
  stored : Nat
deriving DecidableEq, Repr

/-- Python truthiness of the id `insert_article` returns (`if article_id:`):
`None` and `0` are falsy. -/
def truthyId (x : Option Nat) : Bool :=
  match x with
  | none => false
  | some n => n != 0

/-- The storage loop of `crawl_and_store`: for each article with status
200, map it to a record, insert it through the store, and count the
inserts whose returned id is truthy; a falsy id is skipped and the loop
continues with the store state the failed call left behind. -/
def store_loop {σ : Type} (insertFn : σ → RecordDict → Option Nat × σ)
    (source : String) : σ → List Article → Nat × σ
  | db, [] => (0, db)
  | db, a :: rest =>
    if a.status == 200 then
      let r := insertFn db (article_to_record a source)
      let k := store_loop insertFn source r.2 rest
      ((if truthyId r.1 then k.1 + 1 else k.1), k.2)
    else
      store_loop insertFn source db rest

/-- `CrawlerPipeline.crawl_and_store` over the per-task results the
gather step produced (one entry per url).  The store is abstract
(`insertFn` on state `σ`): the pipeline takes whatever `ArticleDatabase`
instance it was constructed with, and `insert_article` may return `None`
on a storage-layer error. -/
def crawl_and_store {σ : Type} (insertFn : σ → RecordDict → Option Nat × σ)
    (db : σ) (urls : List String) (results : List TaskResult)
    (source : String) : PipeStats × σ :=
  let articles := fetch_many results
  let success := (articles.filter fun a => a.status == 200).length
  let stored := store_loop insertFn source db articles
  ({ total := urls.length, success := success,
     failed := urls.length - success, stored := stored.1 }, stored.2)

/-- A soup in which no selector matches and there is no text at all
(e.g. the parse of an empty document). -/
def emptySoup : Soup :=
  ⟨⟨fun _ => none, [], ""⟩, ⟨fun _ => none, [], ""⟩⟩

/-- A parser that is constant at `emptySoup`. -/
def emptyParse : String → Soup := fun _ => emptySoup

/-- A 2001-unit content string, longer than the 2000-unit cap. -/
def bigContent : String := ⟨List.replicate 2001 'a'⟩

/-- A parse in which the fourth title selector, `h1`, matches an element
whose stripped text is empty — e.g. the document `<h1> </h1>`, whose
`h1` tag is truthy (it has whitespace content) but strips to the empty
string — and nothing else matches. -/
def whitespaceH1Soup : Soup :=
  ⟨⟨fun sel => if sel == "h1" then some "" else none, [], ""⟩,
   ⟨fun _ => none, [], ""⟩⟩

theorem pyTake_length (s : String) (n : Nat) :
    (pyTake s n).length = min n s.length := by
  show (s.data.take n).length = min n s.data.length
  exact List.length_take n s.data

theorem pyTake_length_le (s : String) (n : Nat) : (pyTake s n).length ≤ n := by
  rw [pyTake_length]; exact Nat.min_le_left n s.length

theorem pyTake_of_length_le (s : String) (n : Nat) (h : s.length ≤ n) :
    pyTake s n = s := by
  cases s with
  | mk data =>
    show String.mk (data.take n) = String.mk data
    rw [List.take_of_length_le h]

/-- C5: `article_to_record` truncates the content to exactly the 2000-unit
cap when longer and preserves it exactly when shorter or equal, bounds
the title by the 200-unit cap (exactly 200 when longer, preserved when
shorter or equal), and never truncates the url. -/
theorem article_to_record_truncation (article : Article) (source : String) :
    (2000 < article.content.length →
      (article_to_record article source).content.length = 2000) ∧
    (article.content.length ≤ 2000 →
      (article_to_record article source).content = article.content) ∧
    (article_to_record article source).content.length ≤ 2000 ∧
    (200 < article.title.length →
      (article_to_record article source).title.length = 200) ∧
    (article.title.length ≤ 200 →
      (article_to_record article source).title = article.title) ∧
    (article_to_record article source).title.length ≤ 200 ∧
    (article_to_record article source).url = article.url := by
  refine ⟨?_, ?_, ?_, ?_, ?_, ?_, rfl⟩
  · intro h
    show (pyTake article.content 2000).length = 2000
    rw [pyTake_length]; omega
  · intro h
    show pyTake article.content 2000 = article.content
    exact pyTake_of_length_le _ _ h
  · exact pyTake_length_le _ _
  · intro h
    show (pyTake article.title 200).length = 200
    rw [pyTake_length]; omega
  · intro h
    show pyTake article.title 200 = article.title
    exact pyTake_of_length_le _ _ h
  · exact pyTake_length_le _ _

/-- Witness for C5 at a 2001-unit content: the stored content length is
exactly the 2000-unit cap. -/
theorem article_to_record_truncation_witness :
    (article_to_record ⟨"t", "u", bigContent, 0, 200⟩ "src").content.length
      = 2000 :=
  (article_to_record_truncation ⟨"t", "u", bigContent, 0, 200⟩ "src").1
    (by show 2000 < (List.replicate 2001 'a').length
        rw [List.length_replicate]; omega)

/-- C2: one execution of `fetch_one` never raises past its boundary: a
timeout or connection error yields the no-outcome signal `none`, while a
response with status other than 200 yields an `Article` carrying that
status with empty title and empty content — a value distinct from
`none`, so the two failure shapes are distinguishable by `fetch_many`. -/
theorem fetch_one_failure_shapes (url : String) (parse : String → Soup)
    (now : Nat) :
    fetch_one url HttpResult.timeout parse now = none ∧
    (∀ msg, fetch_one url (HttpResult.connectionError msg) parse now = none) ∧
    (∀ status body, status ≠ 200 →
      fetch_one url (HttpResult.response status body) parse now =
        some { title := "", url := url, content := "", fetched_at := now,
               status := status } ∧
      fetch_one url (HttpResult.response status body) parse now ≠ none) := by
  refine ⟨rfl, fun msg => rfl, fun status body h => ⟨?_, ?_⟩⟩
  · simp [fetch_one, h]
  · simp [fetch_one, h]

/-- Witness for C2 at a concrete 404 response: the outcome carries the
observed status with empty title and content. -/
theorem fetch_one_failure_shapes_witness :
    fetch_one "u" (HttpResult.response 404 "body") emptyParse 0 =
      some { title := "", url := "u", content := "", fetched_at := 0,
             status := 404 } :=
  ((fetch_one_failure_shapes "u" emptyParse 0).2.2 404 "body" (by decide)).1

/-- C9: on a 200 response the body is truncated to the 1,000,000-unit cap
before extraction runs and never after: both title and content extraction
are applied to the truncated text, that text has length at most the cap,
and an oversize body still yields a normal outcome (no error signal). -/
theorem fetch_one_truncation_before_extraction (url body : String)
    (parse : String → Soup) (now : Nat) :
    fetch_one url (HttpResult.response 200 body) parse now =
      some { title := extract_title (parse
               (if 1000000 < body.length then pyTake body 1000000 else body)),
             url := url,
             content := extract_content (parse
               (if 1000000 < body.length then pyTake body 1000000 else body)),
             fetched_at := now, status := 200 } ∧
    (if 1000000 < body.length then pyTake body 1000000 else body).length
      ≤ 1000000 ∧
    fetch_one url (HttpResult.response 200 body) parse now ≠ none := by
  refine ⟨?_, ?_, ?_⟩
  · simp [fetch_one]
  · by_cases h : 1000000 < body.length
    · rw [if_pos h]; exact pyTake_length_le _ _
    · rw [if_neg h]; omega
  · simp [fetch_one]

/-- Counterexample to C10: a 200 outcome whose extracted title is the
empty string.  The placeholder fallback fires only when no selector
matches at all; a matched element with empty stripped text is returned
as-is, so the title of a successful outcome can be empty. -/
theorem extract_title_empty_counterexample :
    fetch_one "u" (HttpResult.response 200 "<h1> </h1>")
        (fun _ => whitespaceH1Soup) 0 =
      some { title := "", url := "u", content := "", fetched_at := 0,
             status := 200 } := by
  decide

/-- C10 (amended): for every parsed document the extracted title has
length at most 200 and the extracted content has length at most 10000,
and when no title selector matches any element the title is the fixed
non-empty placeholder; a matched element with empty text, however, may
yield an empty title. -/
theorem extraction_bounds (soup : Soup) :
    (extract_title soup).length ≤ 200 ∧
    (extract_content soup).length ≤ 10000 ∧
    (firstMatch soup.view.select_one title_selectors = none →
      extract_title soup = "无标题" ∧ extract_title soup ≠ "") := by
  refine ⟨?_, ?_, ?_⟩
  · unfold extract_title
    cases h : firstMatch soup.view.select_one title_selectors with
    | some t => exact pyTake_length_le t 200
    | none => decide
  · unfold extract_content
    cases h : firstMatch soup.denoised.select_one content_selectors with
    | some t => exact pyTake_length_le t 10000
    | none =>
      cases hp : soup.denoised.paragraphs with
      | cons p ps => exact pyTake_length_le _ 10000
      | nil => exact Nat.le_trans (pyTake_length_le _ 5000) (by omega)
  · intro h
    unfold extract_title
    rw [h]
    exact ⟨rfl, by decide⟩

/-- Witness for C10 (amended) at a parse with no matching element: the
title is the non-empty placeholder. -/
theorem extraction_bounds_witness :
    extract_title emptySoup = "无标题" ∧ extract_title emptySoup ≠ "" :=
  (extraction_bounds emptySoup).2.2 rfl

/-- One gate step never pushes the number of holders above the capacity:
`acquire` is enabled only below `K`, and `release` only decreases. -/
theorem gateStep_holding_le {K : Nat} {s s' : GateState}
    (h : GateStep K s s') (hs : s.holding ≤ K) : s'.holding ≤ K := by
  cases h with
  | acquire hp hK => exact hK
  | release hh => exact Nat.le_trans (Nat.sub_le _ _) hs

/-- In every reachable state of the gated batch, at most `K` tasks hold
the gate. -/
theorem gateReach_holding_le {K n : Nat} {s : GateState}
    (h : GateReach K n s) : s.holding ≤ K := by
  have h' : Relation.ReflTransGen (GateStep K) ⟨n, 0, 0⟩ s := h
  clear h
  induction h' with
  | refl => exact Nat.zero_le K
  | tail hab hbc ih => exact gateStep_holding_le hbc ih

/-- Counterexample to C8: constructing the crawler with concurrency 0
succeeds — `asyncio.Semaphore(0)` is legal (only a negative initial
value raises `ValueError`), and `AsyncCrawler.__init__` performs no
validation of its own — so a configuration with K = 0 is not rejected
at startup. -/
theorem crawler_init_zero_accepted :
    initOk (AsyncCrawler_init 0 1 30) = true := by decide

/-- C8 (amended): construction fails with a hard error exactly for
negative concurrency values; K = 0 is accepted at startup, although a
gate of capacity 0 then never admits any task, so no fetch can begin. -/
theorem crawler_init_rejects_only_negative :
    (∀ mc d t : Int, initOk (AsyncCrawler_init mc d t) = true ↔ 0 ≤ mc) ∧
    (∀ n s, GateReach 0 n s → s.holding = 0) := by
  constructor
  · intro mc d t
    unfold AsyncCrawler_init Semaphore_init initOk
    by_cases h : mc < 0
    · rw [if_pos h]
      exact ⟨fun hfalse => Bool.noConfusion hfalse, fun hge => absurd h (by omega)⟩
    · rw [if_neg h]
      exact ⟨fun _ => by omega, fun _ => rfl⟩
  · intro n s h
    exact Nat.le_zero.mp (gateReach_holding_le h)

/-- Witness for C8 (amended): a zero-capacity gate admits nobody — in the
initial state of a two-task batch, no task holds the gate. -/
theorem crawler_init_rejects_only_negative_witness :
    (⟨2, 0, 0⟩ : GateState).holding = 0 :=
  crawler_init_rejects_only_negative.2 2 ⟨2, 0, 0⟩ Relation.ReflTransGen.refl

/-- `keepSuccess` keeps exactly the status-200 articles. -/
theorem keepSuccess_eq_some (r : TaskResult) (a : Article) :
    keepSuccess r = some a ↔ r = TaskResult.result (some a) ∧ a.status = 200 := by
  cases r with
  | result o =>
    cases o with
    | none => simp [keepSuccess]
    | some b =>
      by_cases hb : b.status = 200
      · simp [keepSuccess, hb]
        intro h
        rw [← h]; exact hb
      · simp [keepSuccess, hb]
        intro h hs
        rw [← h] at hs; exact hb hs
  | exn m => simp [keepSuccess]

/-- `keepSuccess` drops every failure shape. -/
theorem keepSuccess_eq_none_of_failure (r : TaskResult)
    (h : isFailureResult r = true) : keepSuccess r = none := by
  cases r with
  | result o =>
    cases o with
    | none => rfl
    | some b =>
      have hb : b.status ≠ 200 := by
        simpa [isFailureResult] using h
      simp [keepSuccess, hb]
  | exn m => rfl

/-- C3: `fetch_many` completes the whole batch and returns exactly the
status-200 outcomes, discarding no-outcome signals, non-200 outcomes and
captured exceptions; and one task's failure never removes any other
task's result — deleting a failed entry from the gathered results leaves
the returned collection unchanged. -/
theorem fetch_many_filters_successes :
    (∀ (results : List TaskResult) (a : Article),
      a ∈ fetch_many results ↔
        TaskResult.result (some a) ∈ results ∧ a.status = 200) ∧
    (∀ (xs ys : List TaskResult) (bad : TaskResult),
      isFailureResult bad = true →
      fetch_many (xs ++ bad :: ys) = fetch_many xs ++ fetch_many ys) := by
  constructor
  · intro results a
    constructor
    · intro h
      rcases List.mem_filterMap.mp h with ⟨r, hr, heq⟩
      rcases (keepSuccess_eq_some r a).mp heq with ⟨hre, hs⟩
      exact ⟨hre ▸ hr, hs⟩
    · intro ⟨hmem, hs⟩
      exact List.mem_filterMap.mpr
        ⟨TaskResult.result (some a), hmem,
         (keepSuccess_eq_some _ a).mpr ⟨rfl, hs⟩⟩
  · intro xs ys bad hbad
    unfold fetch_many
    rw [List.filterMap_append]
    congr 1
    rw [List.filterMap_cons, keepSuccess_eq_none_of_failure bad hbad]

/-- Witness for C3: a batch whose only entry is a captured exception
yields the same (empty) collection as the batch with that entry removed. -/
theorem fetch_many_filters_successes_witness :
    fetch_many ([] ++ TaskResult.exn "boom" :: []) =
      fetch_many [] ++ fetch_many [] :=
  fetch_many_filters_successes.2 [] [] (TaskResult.exn "boom") rfl

/-- From any state whose holder count respects a positive capacity, the
batch can run to completion: every task ends done, with the gate fully
released — release being the only exit from the holding section. -/
theorem gate_drain (K : Nat) (hK : 1 ≤ K) :
    ∀ (m : Nat) (s : GateState), 2 * s.pending + s.holding ≤ m →
    s.holding ≤ K →
    ∃ s', Relation.ReflTransGen (GateStep K) s s' ∧
      s'.pending = 0 ∧ s'.holding = 0 := by
  intro m
  induction m with
  | zero =>
    intro s hm _
    refine ⟨s, Relation.ReflTransGen.refl, ?_, ?_⟩ <;> omega
  | succ m ih =>
    intro s hm hsK
    by_cases hh : 0 < s.holding
    · have step := GateStep.release (K := K) s hh
      obtain ⟨s', hr, h1, h2⟩ :=
        ih ⟨s.pending, s.holding - 1, s.done + 1⟩
          (by show 2 * s.pending + (s.holding - 1) ≤ m; omega)
          (by show s.holding - 1 ≤ K; omega)
      exact ⟨s', Relation.ReflTransGen.head step hr, h1, h2⟩
    · by_cases hp : 0 < s.pending
      · have hlt : s.holding < K := by omega
        have step := GateStep.acquire (K := K) s hp hlt
        obtain ⟨s', hr, h1, h2⟩ :=
          ih ⟨s.pending - 1, s.holding + 1, s.done⟩
            (by show 2 * (s.pending - 1) + (s.holding + 1) ≤ m; omega)
            (by show s.holding + 1 ≤ K; omega)
        exact ⟨s', Relation.ReflTransGen.head step hr, h1, h2⟩
      · exact ⟨s, Relation.ReflTransGen.refl, by omega, by omega⟩

/-- C7: for every batch of N ≥ 1 tasks and gate capacity K ≥ 1, in every
reachable state the number of tasks simultaneously between `acquire` and
`release` never exceeds K; and from every reachable state the batch can
finish with every task done and the gate fully released (the release
transition, the model of `async with`, is the only exit from the holding
section, so it fires on every exit path including failure). -/
theorem semaphore_at_most_K (K n : Nat) (s : GateState)
    (hK : 1 ≤ K) (hn : 1 ≤ n) (h : GateReach K n s) :
    s.holding ≤ K ∧
    ∃ s', Relation.ReflTransGen (GateStep K) s s' ∧
      s'.pending = 0 ∧ s'.holding = 0 := by
  have hb := gateReach_holding_le h
  exact ⟨hb, gate_drain K hK (2 * s.pending + s.holding) s (Nat.le_refl _) hb⟩

/-- Witness for C7 at K = 1, N = 1, in the initial state: no task holds
the gate and the batch can complete. -/
theorem semaphore_at_most_K_witness :
    (⟨1, 0, 0⟩ : GateState).holding ≤ 1 ∧
    ∃ s', Relation.ReflTransGen (GateStep 1) ⟨1, 0, 0⟩ s' ∧
      s'.pending = 0 ∧ s'.holding = 0 :=
  semaphore_at_most_K 1 1 ⟨1, 0, 0⟩ (Nat.le_refl 1) (Nat.le_refl 1)
    Relation.ReflTransGen.refl

/-- Unfolding of the storage loop at a cons cell. -/
theorem store_loop_cons {σ : Type}
    (insertFn : σ → RecordDict → Option Nat × σ) (source : String)
    (db : σ) (a : Article) (rest : List Article) :
    store_loop insertFn source db (a :: rest) =
      if a.status == 200 then
        ((if truthyId (insertFn db (article_to_record a source)).1 then
            (store_loop insertFn source
              (insertFn db (article_to_record a source)).2 rest).1 + 1
          else
            (store_loop insertFn source
              (insertFn db (article_to_record a source)).2 rest).1),
         (store_loop insertFn source
           (insertFn db (article_to_record a source)).2 rest).2)
      else store_loop insertFn source db rest := rfl

/-- The storage loop never stores more than the number of status-200
articles it was handed. -/
theorem store_loop_le_filter {σ : Type}
    (insertFn : σ → RecordDict → Option Nat × σ) (source : String) :
    ∀ (articles : List Article) (db : σ),
      (store_loop insertFn source db articles).1 ≤
        (articles.filter fun a => a.status == 200).length := by
  intro articles
  induction articles with
  | nil => intro db; simp [store_loop]
  | cons a rest ih =>
    intro db
    rw [store_loop_cons, List.filter_cons]
    by_cases h : a.status == 200
    · rw [if_pos h, if_pos h]
      by_cases ht : truthyId (insertFn db (article_to_record a source)).1
      · rw [if_pos ht]
        simpa using ih _
      · rw [if_neg ht]
        exact Nat.le_trans (ih _) (Nat.le_succ _)
    · rw [if_neg h, if_neg h]
      exact ih db

/-- C4: for any url list and per-task result list (one result per url, as
`gather` guarantees), the pipeline statistics satisfy
`success + failed = total` and `stored ≤ success`, where stored counts
the successful outcomes whose insert returned a truthy identifier; and a
falsy identifier for one record merely skips that record — the loop
continues with the remaining records in the state the failed call left. -/
theorem crawl_and_store_stats_consistent {σ : Type}
    (insertFn : σ → RecordDict → Option Nat × σ) (db : σ)
    (urls : List String) (results : List TaskResult) (source : String)
    (hlen : results.length = urls.length) :
    ((crawl_and_store insertFn db urls results source).1.success +
        (crawl_and_store insertFn db urls results source).1.failed =
      (crawl_and_store insertFn db urls results source).1.total) ∧
    ((crawl_and_store insertFn db urls results source).1.stored ≤
      (crawl_and_store insertFn db urls results source).1.success) ∧
    (∀ (db0 : σ) (a : Article) (rest : List Article), a.status = 200 →
      truthyId (insertFn db0 (article_to_record a source)).1 = false →
      (store_loop insertFn source db0 (a :: rest)).1 =
        (store_loop insertFn source
          ((insertFn db0 (article_to_record a source)).2) rest).1) := by
  have hsucc : (crawl_and_store insertFn db urls results source).1.success =
      ((fetch_many results).filter fun a => a.status == 200).length := rfl
  have htot : (crawl_and_store insertFn db urls results source).1.total =
      urls.length := rfl
  have hfail : (crawl_and_store insertFn db urls results source).1.failed =
      urls.length -
        ((fetch_many results).filter fun a => a.status == 200).length := rfl
  have hstored : (crawl_and_store insertFn db urls results source).1.stored =
      (store_loop insertFn source db (fetch_many results)).1 := rfl
  have hle : ((fetch_many results).filter fun a => a.status == 200).length ≤
      urls.length := by
    calc ((fetch_many results).filter fun a => a.status == 200).length
        ≤ (fetch_many results).length := List.length_filter_le _ _
      _ ≤ results.length := List.length_filterMap_le _ _
      _ = urls.length := hlen
  refine ⟨?_, ?_, ?_⟩
  · rw [hsucc, htot, hfail]; omega
  · rw [hsucc, hstored]
    exact store_loop_le_filter insertFn source (fetch_many results) db
  · intro db0 a rest h200 hfalse
    rw [store_loop_cons, if_pos (by simp [h200] : (a.status == 200) = true),
        hfalse]
    simp

/-- Witness for C4 on a one-url batch whose only task result is a
captured exception: success 0, failed 1, total 1. -/
theorem crawl_and_store_stats_witness :
    (crawl_and_store (fun (d : Nat) _ => (some (d + 1), d + 1)) 0 ["u"]
        [TaskResult.exn "e"] "s").1.success +
      (crawl_and_store (fun (d : Nat) _ => (some (d + 1), d + 1)) 0 ["u"]
        [TaskResult.exn "e"] "s").1.failed =
    (crawl_and_store (fun (d : Nat) _ => (some (d + 1), d + 1)) 0 ["u"]
        [TaskResult.exn "e"] "s").1.total :=
  (crawl_and_store_stats_consistent (fun (d : Nat) _ => (some (d + 1), d + 1))
    0 ["u"] [TaskResult.exn "e"] "s" rfl).1

/-- The conflict-branch update of `insert_article` never changes a row's
url (`DO UPDATE SET` lists only title, content, fetched_at). -/
theorem update_preserves_url (a : RecordDict) (r : ArticleRow) :
    ((if r.url == a.url then
        { r with title := a.title, content := a.content,
                 fetched_at := a.fetched_at }
      else r) : ArticleRow).url = r.url := by
  by_cases h : r.url == a.url
  · rw [if_pos h]
  · rw [if_neg h]

/-- Filtering by url is unchanged by the conflict-branch update map. -/
theorem filter_url_map_update (a : RecordDict) (u : String)
    (rows : List ArticleRow) :
    ((rows.map fun r =>
        if r.url == a.url then
          { r with title := a.title, content := a.content,
                   fetched_at := a.fetched_at }
        else r).filter fun r => r.url == u).length =
      (rows.filter fun r => r.url == u).length := by
  induction rows with
  | nil => rfl
  | cons x xs ih =>
    rw [List.map_cons, List.filter_cons, List.filter_cons,
        update_preserves_url]
    by_cases h : x.url == u
    · rw [if_pos h, if_pos h]
      simpa using ih
    · rw [if_neg h, if_neg h]
      exact ih

/-- In a table with pairwise-distinct urls, a url that occurs occurs in
exactly one row. -/
theorem count_one_of_pairwise (u : String) (r0 : ArticleRow)
    (hu : r0.url = u) :
    ∀ rows : List ArticleRow,
      rows.Pairwise (fun r r' => r.url ≠ r'.url) → r0 ∈ rows →
      (rows.filter fun r => r.url == u).length = 1 := by
  intro rows
  induction rows with
  | nil => intro _ hmem; cases hmem
  | cons x xs ih =>
    intro hpw hmem
    rw [List.filter_cons]
    rcases List.pairwise_cons.mp hpw with ⟨hx, hxs⟩
    rcases List.mem_cons.mp hmem with hx0 | hmem'
    · subst hx0
      rw [if_pos (by simp [hu])]
      have hnone : xs.filter (fun r => r.url == u) = [] := by
        apply List.filter_eq_nil_iff.mpr
        intro r hr
        have hne := hx r hr
        simp only [beq_iff_eq]
        rw [← hu]
        exact fun hc => hne hc.symm
      rw [hnone]
      rfl
    · have hxu : ¬(x.url == u) = true := by
        have hne := hx r0 hmem'
        simp only [beq_iff_eq]
        rw [← hu]
        exact hne
      rw [if_neg hxu]
      exact ih hxs hmem'

/-- C1: `insert_article` upserts keyed by url — when no stored row has
the record's url, a new row is created and its fresh identifier (one no
existing row carries) is returned; when a row with that url exists,
inserting again leaves exactly one stored row with that url, whose
title, content and fetched_at equal the new record's values, and the
existing row's identifier is returned. -/
theorem insert_article_upsert (db : ArticleDB) (a : RecordDict)
    (now : String) (hwf : DBWF db) :
    (findRow db a.url = none →
      (insert_article db a now).1 = some db.next_id ∧
      (∀ r ∈ db.rows, r.id ≠ db.next_id) ∧
      countUrl (insert_article db a now).2 a.url = 1) ∧
    (∀ r0, findRow db a.url = some r0 →
      (insert_article db a now).1 = some r0.id ∧
      countUrl (insert_article db a now).2 a.url = 1 ∧
      ∀ r ∈ (insert_article db a now).2.rows, r.url = a.url →
        r.title = a.title ∧ r.content = a.content ∧
        r.fetched_at = a.fetched_at) := by
  constructor
  · intro hnone
    have h1 : (insert_article db a now).1 = some db.next_id := by
      unfold insert_article; rw [hnone]
    have h2 : (insert_article db a now).2.rows = db.rows ++
        [{ id := db.next_id, title := a.title, url := a.url,
           content := a.content, source := a.source, category := none,
           fetched_at := a.fetched_at, created_at := now }] := by
      unfold insert_article; rw [hnone]
    refine ⟨h1, ?_, ?_⟩
    · intro r hr
      have := hwf.2 r hr
      omega
    · unfold countUrl
      rw [h2, List.filter_append]
      have hempty : db.rows.filter (fun r => r.url == a.url) = [] := by
        apply List.filter_eq_nil_iff.mpr
        intro r hr
        exact List.find?_eq_none.mp hnone r hr
      rw [hempty]
      simp
  · intro r0 hfound
    have hmem := List.mem_of_find?_eq_some hfound
    have hu : r0.url = a.url := by
      have := List.find?_some hfound
      simpa using this
    have h1 : (insert_article db a now).1 = some r0.id := by
      unfold insert_article; rw [hfound]
    have h2 : (insert_article db a now).2.rows = db.rows.map fun r =>
        if r.url == a.url then
          { r with title := a.title, content := a.content,
                   fetched_at := a.fetched_at }
        else r := by
      unfold insert_article; rw [hfound]
    refine ⟨h1, ?_, ?_⟩
    · unfold countUrl
      rw [h2, filter_url_map_update]
      exact count_one_of_pairwise a.url r0 hu db.rows hwf.1 hmem
    · rw [h2]
      intro r hr hurl
      rcases List.mem_map.mp hr with ⟨r1, hr1, hfr⟩
      by_cases hc : r1.url == a.url
      · rw [if_pos hc] at hfr
        rw [← hfr]
        exact ⟨rfl, rfl, rfl⟩
      · rw [if_neg hc] at hfr
        exfalso
        apply hc
        rw [hfr]
        simp [hurl]

/-- Witness for C1 on an empty table: the fresh identifier 1 is
returned for the first insert. -/
theorem insert_article_upsert_witness :
    (insert_article ⟨[], 1⟩ ⟨"t", "u", "c", "s", "f"⟩ "n").1 = some 1 :=
  ((insert_article_upsert ⟨[], 1⟩ ⟨"t", "u", "c", "s", "f"⟩ "n"
      ⟨List.Pairwise.nil, by simp⟩).1 rfl).1

/-- C6: an upsert that hits an existing row (same url) keeps the table's
size (no row is deleted), keeps every row's store-assigned identifier,
creation timestamp, source label, category and url, and leaves the
autoincrement counter unchanged — only title, content and fetched_at of
the conflicting row may change. -/
theorem insert_article_frame (db : ArticleDB) (a : RecordDict)
    (now : String) (r0 : ArticleRow) (hfound : findRow db a.url = some r0) :
    (insert_article db a now).2.rows.length = db.rows.length ∧
    List.Forall₂ (fun r r' : ArticleRow =>
        r'.id = r.id ∧ r'.created_at = r.created_at ∧
        r'.source = r.source ∧ r'.category = r.category ∧ r'.url = r.url)
      db.rows (insert_article db a now).2.rows ∧
    (insert_article db a now).2.next_id = db.next_id := by
  have h2 : (insert_article db a now).2.rows = db.rows.map fun r =>
      if r.url == a.url then
        { r with title := a.title, content := a.content,
                 fetched_at := a.fetched_at }
      else r := by
    unfold insert_article; rw [hfound]
  have h3 : (insert_article db a now).2.next_id = db.next_id := by
    unfold insert_article; rw [hfound]
  refine ⟨by rw [h2, List.length_map], ?_, h3⟩
  rw [h2]
  apply List.forall₂_map_right_iff.mpr
  apply List.forall₂_same.mpr
  intro r hr
  by_cases hc : r.url == a.url
  · rw [if_pos hc]
    exact ⟨rfl, rfl, rfl, rfl, rfl⟩
  · rw [if_neg hc]
    exact ⟨rfl, rfl, rfl, rfl, rfl⟩

/-- Witness for C6 on a one-row table hit by a same-url insert: the
table still has exactly one row. -/
theorem insert_article_frame_witness :
    (insert_article ⟨[⟨1, "t0", "u", "c0", "s0", none, "f0", "cr0"⟩], 2⟩
        ⟨"t", "u", "c", "s", "f"⟩ "n").2.rows.length = 1 :=
  (insert_article_frame ⟨[⟨1, "t0", "u", "c0", "s0", none, "f0", "cr0"⟩], 2⟩
      ⟨"t", "u", "c", "s", "f"⟩ "n"
      ⟨1, "t0", "u", "c0", "s0", none, "f0", "cr0"⟩ rfl).1
